import Mathlib

/-!
Verification of the real-time connection hub of the ApoloTeams repository
(`backend/src/websocket.rs`), as a shallow embedding in Lean 4.

Modelling conventions:
* `Uuid` is modelled as `Nat` (the source uses opaque 128-bit identifiers;
  only equality is ever used).
* `DashMap<K, V>` is modelled as an association list with at most one entry
  per key; `insert` replaces the value in place when the key is present
  (matching `DashMap::insert`) and `remove`/`get_mut` behave pointwise.
* `HashSet<Uuid>` is modelled as a duplicate-free list with membership test.
* A `tokio::sync::broadcast::Sender<String>` is modelled by a numeric handle
  identifier; `register` draws fresh handles from a counter, matching the
  creation of a fresh channel per registration.
* `serde_json::to_string` is external library code; it is modelled as a
  parameter `ser : WebSocketMessage → Option String` (`Ok`/`Err` of the
  source becomes `some`/`none`).
* A push into a user's broadcast channel is recorded as a `Push` value; the
  success of `Sender::send` (whether any receiver is alive) is modelled by a
  parameter `recvOk : Nat → Bool` applied to the handle, and is recorded in
  the push but — exactly as in the source, which only counts the outcome —
  never influences control flow.
* The broadcast methods of the source take `&self` and perform no map
  mutation, so their embeddings return only the list of pushes; the server
  value is unchanged by construction, mirroring the source.
-/

namespace ApoloTeams

abbrev Uuid := Nat

/-- `shared::models::UserStatus`. -/
inductive UserStatus where
  | online
  | available
  | away
  | busy
  | doNotDisturb
  | offline
deriving DecidableEq, Repr

/-- `shared::dto::UserResponse`, reduced to the identifier: the hub never
inspects any other profile field (the full record only rides through
serialization, which is itself a parameter of the model). -/
structure UserResponse where
  id : Uuid
deriving DecidableEq, Repr

/-- `shared::dto::MessageResponse`, reduced to the fields the hub could
observe; the hub treats the record as an opaque payload. -/
structure MessageResponse where
  id : Uuid
  channel_id : Uuid
  content : String
deriving DecidableEq, Repr

/-- `shared::dto::CallResponse`, reduced to identifiers. -/
structure CallResponse where
  id : Uuid
  channel_id : Uuid
deriving DecidableEq, Repr

/-- `shared::dto::CallParticipantResponse`, reduced to the user. -/
structure CallParticipantResponse where
  user : UserResponse
deriving DecidableEq, Repr

/-- `shared::dto::NotificationResponse`, reduced to the identifier. -/
structure NotificationResponse where
  id : Uuid
deriving DecidableEq, Repr

/-- `shared::dto::SendMessageRequest` as built in the `SendMessage` arm of
`ws_handler` (`message_type` and `attachment_ids` are always `None` there). -/
structure SendMessageRequest where
  content : String
  message_type : Option String
  reply_to_id : Option Uuid
  attachment_ids : Option (List Uuid)
deriving DecidableEq, Repr

/-- `shared::dto::WebSocketMessage`, the tagged wire-message union.

The `joinCall` and `leaveCall` variants are matched by `ws_handler` but the
enum declaration shipped in `shared/src/dto.rs` lacks them; modelled from
the spec: §6 lists the client-to-server variants `JoinCall{call_id}` and
`LeaveCall{call_id}`, which is exactly the payload the handler destructures. -/
inductive WebSocketMessage where
  | authenticate (token : String)
  | joinChannel (channel_id : Uuid)
  | leaveChannel (channel_id : Uuid)
  | sendMessage (channel_id : Uuid) (content : String) (reply_to_id : Option Uuid)
  | startTyping (channel_id : Uuid)
  | stopTyping (channel_id : Uuid)
  | updateStatus (status : UserStatus) (status_message : Option String)
  | joinCall (call_id : Uuid)
  | leaveCall (call_id : Uuid)
  | authenticated (user : UserResponse)
  | error (code : String) (message : String)
  | newMessage (message : MessageResponse)
  | messageUpdated (message : MessageResponse)
  | messageDeleted (channel_id : Uuid) (message_id : Uuid)
  | userTyping (channel_id : Uuid) (user : UserResponse)
  | userStoppedTyping (channel_id : Uuid) (user_id : Uuid)
  | userStatusChanged (user_id : Uuid) (status : UserStatus) (status_message : Option String)
  | userJoinedChannel (channel_id : Uuid) (user : UserResponse)
  | userLeftChannel (channel_id : Uuid) (user_id : Uuid)
  | callStarted (call : CallResponse)
  | callEnded (call_id : Uuid)
  | participantJoined (call_id : Uuid) (participant : CallParticipantResponse)
  | participantLeft (call_id : Uuid) (user_id : Uuid)
  | notification (notification : NotificationResponse)
  | webRTCOffer (call_id : Uuid) (from_user_id : Uuid) (sdp : String)
  | webRTCAnswer (call_id : Uuid) (from_user_id : Uuid) (sdp : String)
  | webRTCIceCandidate (call_id : Uuid) (from_user_id : Uuid) (candidate : String)
deriving DecidableEq, Repr

/-- The serializer (`serde_json::to_string`), an external collaborator:
`some` is `Ok`, `none` is `Err`. -/
abbrev Ser := WebSocketMessage → Option String

/-! ### Association-list model of `DashMap` -/

/-- `DashMap::insert`: replace in place when the key is present, otherwise
add a fresh entry. -/
def alistInsert (k : Uuid) (v : α) : List (Uuid × α) → List (Uuid × α)
  | [] => [(k, v)]
  | a :: t => if a.1 == k then (k, v) :: t else a :: alistInsert k v t

/-- `DashMap::remove`. -/
def alistRemove (k : Uuid) (l : List (Uuid × α)) : List (Uuid × α) :=
  l.filter (fun p => p.1 != k)

/-- `DashMap::get`. -/
def alistLookup (k : Uuid) (l : List (Uuid × α)) : Option α :=
  (l.find? (fun p => p.1 == k)).map Prod.snd

/-! ### List model of `HashSet<Uuid>` -/

/-- `HashSet::insert`. -/
def hsInsert (u : Uuid) (s : List Uuid) : List Uuid :=
  if s.contains u then s else u :: s

/-- `HashSet::remove`. -/
def hsRemove (u : Uuid) (s : List Uuid) : List Uuid :=
  s.filter (fun v => v != u)

/-! ### The hub state: `WebSocketServer` -/

/-- `websocket::WebSocketServer`: the four concurrent maps, plus the counter
supplying fresh broadcast-channel handles for `register`. -/
structure WebSocketServer where
  connections : List (Uuid × Nat)
  channel_subscriptions : List (Uuid × List Uuid)
  user_statuses : List (Uuid × UserStatus)
  call_subscriptions : List (Uuid × List Uuid)
  nextHandle : Nat
deriving DecidableEq, Repr

/-- `WebSocketServer::new`. -/
def WebSocketServer.new : WebSocketServer :=
  { connections := [], channel_subscriptions := [], user_statuses := [],
    call_subscriptions := [], nextHandle := 0 }

/-- `WebSocketServer::register`: create a fresh broadcast channel (a fresh
handle), store the sender keyed by the user (replacing any prior one), set the
status to `Online`, and return the receiver side (identified by the same
handle). -/
def register (s : WebSocketServer) (user_id : Uuid) : WebSocketServer × Nat :=
  let h := s.nextHandle
  ({ s with
      connections := alistInsert user_id h s.connections,
      user_statuses := alistInsert user_id UserStatus.online s.user_statuses,
      nextHandle := h + 1 }, h)

/-- `WebSocketServer::unregister`: drop the connection entry, force the
status to `Offline`, and remove the user from every channel and call
subscription set. -/
def unregister (s : WebSocketServer) (user_id : Uuid) : WebSocketServer :=
  { s with
      connections := alistRemove user_id s.connections,
      user_statuses := alistInsert user_id UserStatus.offline s.user_statuses,
      channel_subscriptions :=
        s.channel_subscriptions.map (fun p => (p.1, hsRemove user_id p.2)),
      call_subscriptions :=
        s.call_subscriptions.map (fun p => (p.1, hsRemove user_id p.2)) }

/-- `WebSocketServer::subscribe_to_channel`:
`entry(channel_id).or_insert_with(HashSet::new).insert(user_id)`. -/
def subscribe_to_channel (s : WebSocketServer) (channel_id user_id : Uuid) :
    WebSocketServer :=
  { s with
      channel_subscriptions :=
        match alistLookup channel_id s.channel_subscriptions with
        | some set => alistInsert channel_id (hsInsert user_id set) s.channel_subscriptions
        | none => alistInsert channel_id [user_id] s.channel_subscriptions }

/-- `WebSocketServer::unsubscribe_from_channel`: remove from the set behind
`get_mut(channel_id)` when present; no effect when the channel is absent. -/
def unsubscribe_from_channel (s : WebSocketServer) (channel_id user_id : Uuid) :
    WebSocketServer :=
  { s with
      channel_subscriptions :=
        s.channel_subscriptions.map
          (fun p => if p.1 == channel_id then (p.1, hsRemove user_id p.2) else p) }

/-- `WebSocketServer::subscribe_to_call`. -/
def subscribe_to_call (s : WebSocketServer) (call_id user_id : Uuid) :
    WebSocketServer :=
  { s with
      call_subscriptions :=
        match alistLookup call_id s.call_subscriptions with
        | some set => alistInsert call_id (hsInsert user_id set) s.call_subscriptions
        | none => alistInsert call_id [user_id] s.call_subscriptions }

/-- `WebSocketServer::unsubscribe_from_call`. -/
def unsubscribe_from_call (s : WebSocketServer) (call_id user_id : Uuid) :
    WebSocketServer :=
  { s with
      call_subscriptions :=
        s.call_subscriptions.map
          (fun p => if p.1 == call_id then (p.1, hsRemove user_id p.2) else p) }

/-- `WebSocketServer::update_user_status`. -/
def update_user_status (s : WebSocketServer) (user_id : Uuid) (status : UserStatus) :
    WebSocketServer :=
  { s with user_statuses := alistInsert user_id status s.user_statuses }

/-- `WebSocketServer::get_user_status`: defaults to `Offline` when absent. -/
def get_user_status (s : WebSocketServer) (user_id : Uuid) : UserStatus :=
  (alistLookup user_id s.user_statuses).getD UserStatus.offline

/-- `WebSocketServer::get_call_participants`: snapshot of a call's
subscription set (empty when the call is absent). -/
def get_call_participants (s : WebSocketServer) (call_id : Uuid) : List Uuid :=
  (alistLookup call_id s.call_subscriptions).getD []

/-- Snapshot of a channel's subscription set (the set `S` of the spec's
broadcast property; empty when the channel is absent). -/
def members (s : WebSocketServer) (channel_id : Uuid) : List Uuid :=
  (alistLookup channel_id s.channel_subscriptions).getD []

/-- `WebSocketServer::get_online_users_in_channel`. -/
def get_online_users_in_channel (s : WebSocketServer) (channel_id : Uuid) : List Uuid :=
  ((alistLookup channel_id s.channel_subscriptions).map
    (fun subscribers =>
      subscribers.filter (fun user_id => (alistLookup user_id s.connections).isSome))).getD []

/-- `WebSocketServer::remove_call`. -/
def remove_call (s : WebSocketServer) (call_id : Uuid) : WebSocketServer :=
  { s with call_subscriptions := alistRemove call_id s.call_subscriptions }

/-! ### Delivery: pushes into users' broadcast channels -/

/-- One push into a user's broadcast channel: who, into which handle, the
serialized string, and whether `Sender::send` succeeded (a live receiver
existed). The source inspects the outcome only for logging. -/
structure Push where
  user : Uuid
  handle : Nat
  payload : String
  ok : Bool
deriving DecidableEq, Repr

/-- `exclude_user.map_or(true, |excluded| excluded != user_id)`. -/
def notExcluded (exclude_user : Option Uuid) (u : Uuid) : Bool :=
  match exclude_user with
  | some excluded => excluded != u
  | none => true

/-- The shared fan-out loop of `broadcast_to_channel` and
`send_to_call_participants`: for every member not excluded that has a
connection, push the (already serialized) string into its handle. -/
def fanout (conns : List (Uuid × Nat)) (recvOk : Nat → Bool) (json : String)
    (mem : List Uuid) (exclude_user : Option Uuid) : List Push :=
  mem.filterMap (fun u =>
    if notExcluded exclude_user u then
      (alistLookup u conns).map (fun h => ⟨u, h, json, recvOk h⟩)
    else none)

/-- `WebSocketServer::send_to_user`: look up the handle; absent user or
serialization failure is a silent no-op. -/
def send_to_user (s : WebSocketServer) (ser : Ser) (recvOk : Nat → Bool)
    (user_id : Uuid) (message : WebSocketMessage) : List Push :=
  match alistLookup user_id s.connections with
  | some sender =>
    match ser message with
    | some json => [⟨user_id, sender, json, recvOk sender⟩]
    | none => []
  | none => []

/-- `WebSocketServer::broadcast_to_channel`: resolve the subscriber set (no
subscribers → nothing), serialize once (failure → return), then fan out to
every subscriber other than `exclude_user` that has a connection. -/
def broadcast_to_channel (s : WebSocketServer) (ser : Ser) (recvOk : Nat → Bool)
    (channel_id : Uuid) (message : WebSocketMessage) (exclude_user : Option Uuid) :
    List Push :=
  match alistLookup channel_id s.channel_subscriptions with
  | some subscribers =>
    match ser message with
    | some json => fanout s.connections recvOk json subscribers exclude_user
    | none => []
  | none => []

/-- `WebSocketServer::broadcast_to_all`: serialize once (failure → return),
then push to every entry of the Connection Registry other than
`exclude_user`. -/
def broadcast_to_all (s : WebSocketServer) (ser : Ser) (recvOk : Nat → Bool)
    (message : WebSocketMessage) (exclude_user : Option Uuid) : List Push :=
  match ser message with
  | some json =>
    s.connections.filterMap (fun p =>
      if notExcluded exclude_user p.1 then some ⟨p.1, p.2, json, recvOk p.2⟩ else none)
  | none => []

/-- `WebSocketServer::send_to_call_participants`: resolve the call's
subscription set (absent call → nothing), serialize once (failure → return),
then fan out to every participant other than `exclude_user` that has a
connection. -/
def send_to_call_participants (s : WebSocketServer) (ser : Ser) (recvOk : Nat → Bool)
    (call_id : Uuid) (message : WebSocketMessage) (exclude_user : Option Uuid) :
    List Push :=
  match alistLookup call_id s.call_subscriptions with
  | some participants =>
    match ser message with
    | some json => fanout s.connections recvOk json participants exclude_user
    | none => []
  | none => []

/-! ### The connection session (`ws_handler`) -/

/-- The external collaborators consumed by the session, as pure result
tables: token verification, profile lookup, durable channel membership, and
message persistence. (`users.update_status`, whose result `ws_handler`
discards with `let _ =`, has no observable outcome and is omitted.) -/
structure CollabEnv where
  verify_access_token : String → Except String Uuid
  get_user : Uuid → Option UserResponse
  is_member : Uuid → Uuid → Except Unit Bool
  send_message : Uuid → Uuid → SendMessageRequest → Option MessageResponse

/-- The observable outcome of processing one inbound frame: the hub state
after the arm, the session's authenticated identity after the arm, the
frames written directly back to this client (`session.text`), the pushes
into users' broadcast channels, the handle whose forwarding task was spawned
by this arm (if any), and whether the arm breaks the read loop. -/
structure StepResult where
  server : WebSocketServer
  user_id : Option Uuid
  replies : List String
  pushes : List Push
  spawned : Option Nat
  closed : Bool
deriving DecidableEq, Repr

/-- No-effect step outcome. -/
def StepResult.none_ (s : WebSocketServer) (user_id : Option Uuid) : StepResult :=
  { server := s, user_id := user_id, replies := [], pushes := [], spawned := none,
    closed := false }

/-- The `Message::Text` arm of `ws_handler`: dispatch a parsed
`WebSocketMessage` in session state `user_id`, one arm per source arm. -/
def handle_text (env : CollabEnv) (ser : Ser) (recvOk : Nat → Bool)
    (s : WebSocketServer) (user_id : Option Uuid) (msg : WebSocketMessage) :
    StepResult :=
  match msg with
  | .authenticate token =>
    match env.verify_access_token token with
    | .ok uid =>
      let reg := register s uid
      let replies :=
        match env.get_user uid with
        | some user =>
          match ser (.authenticated user) with
          | some json => [json]
          | none => []
        | none => []
      { server := reg.1, user_id := some uid, replies := replies, pushes := [],
        spawned := some reg.2, closed := false }
    | .error e =>
      let replies :=
        match ser (.error "AUTH_FAILED" e) with
        | some json => [json]
        | none => []
      { server := s, user_id := user_id, replies := replies, pushes := [],
        spawned := none, closed := false }
  | .joinChannel channel_id =>
    match user_id with
    | some uid =>
      match env.is_member channel_id uid with
      | .ok true =>
        let s1 := subscribe_to_channel s channel_id uid
        let pushes :=
          match env.get_user uid with
          | some user =>
            broadcast_to_channel s1 ser recvOk channel_id
              (.userJoinedChannel channel_id user) (some uid)
          | none => []
        { StepResult.none_ s1 user_id with pushes := pushes }
      | .ok false => StepResult.none_ s user_id
      | .error _ => StepResult.none_ s user_id
    | none => StepResult.none_ s user_id
  | .leaveChannel channel_id =>
    match user_id with
    | some uid =>
      let s1 := unsubscribe_from_channel s channel_id uid
      let pushes :=
        broadcast_to_channel s1 ser recvOk channel_id
          (.userLeftChannel channel_id uid) (some uid)
      { StepResult.none_ s1 user_id with pushes := pushes }
    | none => StepResult.none_ s user_id
  | .sendMessage channel_id content reply_to_id =>
    match user_id with
    | some uid =>
      let request : SendMessageRequest :=
        { content := content, message_type := none, reply_to_id := reply_to_id,
          attachment_ids := none }
      match env.send_message channel_id uid request with
      | some message =>
        let pushes :=
          broadcast_to_channel s ser recvOk channel_id (.newMessage message) none
        { StepResult.none_ s user_id with pushes := pushes }
      | none => StepResult.none_ s user_id
    | none => StepResult.none_ s user_id
  | .startTyping channel_id =>
    match user_id with
    | some uid =>
      match env.get_user uid with
      | some user =>
        let pushes :=
          broadcast_to_channel s ser recvOk channel_id
            (.userTyping channel_id user) (some uid)
        { StepResult.none_ s user_id with pushes := pushes }
      | none => StepResult.none_ s user_id
    | none => StepResult.none_ s user_id
  | .stopTyping channel_id =>
    match user_id with
    | some uid =>
      let pushes :=
        broadcast_to_channel s ser recvOk channel_id
          (.userStoppedTyping channel_id uid) (some uid)
      { StepResult.none_ s user_id with pushes := pushes }
    | none => StepResult.none_ s user_id
  | .updateStatus status status_message =>
    match user_id with
    | some uid =>
      let s1 := update_user_status s uid status
      let pushes :=
        broadcast_to_all s1 ser recvOk
          (.userStatusChanged uid status status_message) (some uid)
      { StepResult.none_ s1 user_id with pushes := pushes }
    | none => StepResult.none_ s user_id
  | .joinCall call_id =>
    match user_id with
    | some uid => StepResult.none_ (subscribe_to_call s call_id uid) user_id
    | none => StepResult.none_ s user_id
  | .leaveCall call_id =>
    match user_id with
    | some uid =>
      let s1 := unsubscribe_from_call s call_id uid
      let pushes :=
        send_to_call_participants s1 ser recvOk call_id
          (.participantLeft call_id uid) (some uid)
      { StepResult.none_ s1 user_id with pushes := pushes }
    | none => StepResult.none_ s user_id
  | .webRTCOffer call_id _from_user_id sdp =>
    match user_id with
    | some uid =>
      let pushes :=
        send_to_call_participants s ser recvOk call_id
          (.webRTCOffer call_id uid sdp) (some uid)
      { StepResult.none_ s user_id with pushes := pushes }
    | none => StepResult.none_ s user_id
  | .webRTCAnswer call_id _from_user_id sdp =>
    match user_id with
    | some uid =>
      let pushes :=
        send_to_call_participants s ser recvOk call_id
          (.webRTCAnswer call_id uid sdp) (some uid)
      { StepResult.none_ s user_id with pushes := pushes }
    | none => StepResult.none_ s user_id
  | .webRTCIceCandidate call_id _from_user_id candidate =>
    match user_id with
    | some uid =>
      let pushes :=
        send_to_call_participants s ser recvOk call_id
          (.webRTCIceCandidate call_id uid candidate) (some uid)
      { StepResult.none_ s user_id with pushes := pushes }
    | none => StepResult.none_ s user_id
  | _ => StepResult.none_ s user_id

/-- The `Message::Close` arm of `ws_handler`: when authenticated, unregister
(the hub cleanup), then broadcast the offline status change to everyone
else, and break the read loop. -/
def handle_close_msg (ser : Ser) (recvOk : Nat → Bool) (s : WebSocketServer)
    (user_id : Option Uuid) : StepResult :=
  match user_id with
  | some uid =>
    let s1 := unregister s uid
    let pushes :=
      broadcast_to_all s1 ser recvOk
        (.userStatusChanged uid UserStatus.offline none) (some uid)
    { server := s1, user_id := user_id, replies := [], pushes := pushes,
      spawned := none, closed := true }
  | none =>
    { server := s, user_id := user_id, replies := [], pushes := [],
      spawned := none, closed := true }

/-- The cleanup after the read loop of `ws_handler` ends: a second
`unregister` when authenticated, with no broadcast. -/
def session_cleanup (s : WebSocketServer) (user_id : Option Uuid) : WebSocketServer :=
  match user_id with
  | some uid => unregister s uid
  | none => s

/-! ### The forwarding task -/

/-- One outcome of `rx.recv().await` in the forwarding task. -/
inductive RecvEvent where
  | item (s : String)
  | lagged (n : Nat)
  | closed
deriving DecidableEq, Repr

/-- The forwarding task spawned on authentication: forward each received
string into the session (stopping if the session write fails), keep going on
a lag notification, stop on channel closure. Returns the strings forwarded
and whether the loop terminated (by a failed write or by closure) before
exhausting the trace. -/
def forwardTask (sendOk : String → Bool) : List RecvEvent → List String × Bool
  | [] => ([], false)
  | .item str :: rest =>
    if sendOk str then
      let r := forwardTask sendOk rest
      (str :: r.1, r.2)
    else ([], true)
  | .lagged _ :: rest => forwardTask sendOk rest
  | .closed :: _ => ([], true)

/-! ### The whole hub as a transition system

One task per live connection mutates the shared `WebSocketServer`; a step is
one arm of one session's read loop (with the collaborator results of that
call quantified per step), the post-loop cleanup, or the one mutating call
reachable from the HTTP handlers (`remove_call` in `handlers/calls.rs`; all
other handler calls into the hub are broadcasts and mutate nothing). The
`Ping` arm and parse failures mutate nothing and need no step. -/

/-- Lifecycle of one session task: the read loop is running with the given
authenticated identity, or the loop has ended (`Close` frame or stream end)
and the final cleanup has not run yet. -/
inductive SessSt where
  | running (user_id : Option Uuid)
  | closing (user_id : Option Uuid)
deriving DecidableEq, Repr

/-- Global state: the shared hub plus every live session task. -/
structure Sys where
  server : WebSocketServer
  sessions : List (Nat × SessSt)
deriving DecidableEq, Repr

/-- The hub process starts with an empty server and no sessions. -/
def initSys : Sys :=
  { server := WebSocketServer.new, sessions := [] }

/-- One interleaving step of the hub. -/
inductive Step : Sys → Sys → Prop where
  | spawn (sys : Sys) (sid : Nat)
      (h : alistLookup sid sys.sessions = none) :
      Step sys { server := sys.server, sessions := (sid, .running none) :: sys.sessions }
  | text (sys : Sys) (sid : Nat) (st : Option Uuid) (msg : WebSocketMessage)
      (env : CollabEnv) (ser : Ser) (recvOk : Nat → Bool)
      (h : alistLookup sid sys.sessions = some (.running st)) :
      Step sys
        { server := (handle_text env ser recvOk sys.server st msg).server,
          sessions :=
            alistInsert sid (.running (handle_text env ser recvOk sys.server st msg).user_id)
              sys.sessions }
  | close_frame (sys : Sys) (sid : Nat) (st : Option Uuid) (ser : Ser)
      (recvOk : Nat → Bool)
      (h : alistLookup sid sys.sessions = some (.running st)) :
      Step sys
        { server := (handle_close_msg ser recvOk sys.server st).server,
          sessions := alistInsert sid (.closing st) sys.sessions }
  | stream_end (sys : Sys) (sid : Nat) (st : Option Uuid)
      (h : alistLookup sid sys.sessions = some (.running st)) :
      Step sys { server := sys.server, sessions := alistInsert sid (.closing st) sys.sessions }
  | cleanup (sys : Sys) (sid : Nat) (st : Option Uuid)
      (h : alistLookup sid sys.sessions = some (.closing st)) :
      Step sys
        { server := session_cleanup sys.server st,
          sessions := alistRemove sid sys.sessions }
  | http_remove_call (sys : Sys) (call_id : Uuid) :
      Step sys { server := remove_call sys.server call_id, sessions := sys.sessions }

/-- A hub state is reachable when a finite interleaving of steps produces it
from the initial state. -/
def Reachable (sys : Sys) : Prop :=
  Relation.ReflTransGen Step initSys sys

/-! ### Concrete fixtures for witnesses and counterexamples -/

/-- A serializer that succeeds on every message with the string "w". -/
def serConst : Ser := fun _ => some "w"

/-- A serializer that fails on every message. -/
def serNone : Ser := fun _ => none

/-- Every broadcast channel has a live receiver. -/
def recvOkTrue : Nat → Bool := fun _ => true

/-- A collaborator table: every token verifies as user 0, profiles resolve,
membership always confirms, persistence succeeds. -/
def env0 : CollabEnv :=
  { verify_access_token := fun _ => Except.ok 0,
    get_user := fun uid => some { id := uid },
    is_member := fun _ _ => Except.ok true,
    send_message := fun channel_id _uid req =>
      some { id := 0, channel_id := channel_id, content := req.content } }

/-- A collaborator table whose membership check reports non-membership for
every query. -/
def envNoMember : CollabEnv :=
  { env0 with is_member := fun _ _ => Except.ok false }

/-- A collaborator table for the reachability trace: every token verifies as
user 0, and every other collaborator fails. -/
def env3 : CollabEnv :=
  { verify_access_token := fun _ => Except.ok 0,
    get_user := fun _ => none,
    is_member := fun _ _ => Except.error (),
    send_message := fun _ _ _ => none }

/-- A collaborator table where every token verifies as user 2. -/
def env3C9 : CollabEnv :=
  { env0 with verify_access_token := fun _ => Except.ok 2 }

/-- A small populated hub: users 0 and 1 registered, both subscribed to
channel 5 and to call 7. -/
def srvW : WebSocketServer :=
  let s1 := (register WebSocketServer.new 0).1
  let s2 := (register s1 1).1
  let s3 := subscribe_to_channel s2 5 0
  let s4 := subscribe_to_channel s3 5 1
  let s5 := subscribe_to_call s4 7 0
  subscribe_to_call s5 7 1

/-- A fixed payload used by witnesses. -/
def msgW : WebSocketMessage := .newMessage { id := 0, channel_id := 5, content := "hi" }

/-- A hub state where user 0 has a status but no connection handle. -/
def srvBusy : WebSocketServer := update_user_status WebSocketServer.new 0 UserStatus.busy

/-! Intermediate states of a concrete interleaving in which user 0 holds two
sessions, the first session closes (unregistering user 0 everywhere), and
the surviving second session then joins a call. -/

/-- Session 0 spawned. -/
def sys1 : Sys := { server := WebSocketServer.new, sessions := [(0, SessSt.running none)] }

/-- Session 1 spawned as well. -/
def sys2 : Sys :=
  { server := WebSocketServer.new,
    sessions := [(1, SessSt.running none), (0, SessSt.running none)] }

/-- Hub after session 0 authenticates as user 0. -/
def srvA : WebSocketServer :=
  { connections := [(0, 0)], channel_subscriptions := [],
    user_statuses := [(0, UserStatus.online)], call_subscriptions := [],
    nextHandle := 1 }

def sys3 : Sys :=
  { server := srvA,
    sessions := [(1, SessSt.running none), (0, SessSt.running (some 0))] }

/-- Hub after session 1 also authenticates as user 0 (handle replaced). -/
def srvB : WebSocketServer :=
  { connections := [(0, 1)], channel_subscriptions := [],
    user_statuses := [(0, UserStatus.online)], call_subscriptions := [],
    nextHandle := 2 }

def sys4 : Sys :=
  { server := srvB,
    sessions := [(1, SessSt.running (some 0)), (0, SessSt.running (some 0))] }

/-- Hub after session 0 receives a `Close` frame: user 0 unregistered. -/
def srvC : WebSocketServer :=
  { connections := [], channel_subscriptions := [],
    user_statuses := [(0, UserStatus.offline)], call_subscriptions := [],
    nextHandle := 2 }

def sys5 : Sys :=
  { server := srvC,
    sessions := [(1, SessSt.running (some 0)), (0, SessSt.closing (some 0))] }

def sys6 : Sys := { server := srvC, sessions := [(1, SessSt.running (some 0))] }

/-- Hub after the surviving session 1 (still authenticated as user 0) joins
call 7: user 0 sits in a call subscription set with no connection handle. -/
def srvD : WebSocketServer :=
  { connections := [], channel_subscriptions := [],
    user_statuses := [(0, UserStatus.offline)], call_subscriptions := [(7, [0])],
    nextHandle := 2 }

def badSys : Sys := { server := srvD, sessions := [(1, SessSt.running (some 0))] }

/-! Intermediate states of a second concrete interleaving: besides user 0's
two sessions (0 and 1), session 2 authenticates as user 1; after session 0
closes, both surviving sessions join call 7, leaving call 7 with subscriber
0 holding no handle and subscriber 1 connected. -/

/-- A collaborator table where every token verifies as user 1. -/
def envOk1 : CollabEnv :=
  { env0 with verify_access_token := fun _ => Except.ok 1 }

/-- Sessions 0, 1 and 2 spawned. -/
def sysP3 : Sys :=
  { server := WebSocketServer.new,
    sessions := [(2, SessSt.running none), (1, SessSt.running none),
      (0, SessSt.running none)] }

def sysP4 : Sys :=
  { server := srvA,
    sessions := [(2, SessSt.running none), (1, SessSt.running none),
      (0, SessSt.running (some 0))] }

def sysP5 : Sys :=
  { server := srvB,
    sessions := [(2, SessSt.running none), (1, SessSt.running (some 0)),
      (0, SessSt.running (some 0))] }

/-- Hub after session 2 authenticates as user 1. -/
def srvAB : WebSocketServer :=
  { connections := [(0, 1), (1, 2)], channel_subscriptions := [],
    user_statuses := [(0, UserStatus.online), (1, UserStatus.online)],
    call_subscriptions := [], nextHandle := 3 }

def sysP6 : Sys :=
  { server := srvAB,
    sessions := [(2, SessSt.running (some 1)), (1, SessSt.running (some 0)),
      (0, SessSt.running (some 0))] }

/-- Hub after session 0 receives a `Close` frame: user 0 unregistered. -/
def srvABc : WebSocketServer :=
  { connections := [(1, 2)], channel_subscriptions := [],
    user_statuses := [(0, UserStatus.offline), (1, UserStatus.online)],
    call_subscriptions := [], nextHandle := 3 }

def sysP7 : Sys :=
  { server := srvABc,
    sessions := [(2, SessSt.running (some 1)), (1, SessSt.running (some 0)),
      (0, SessSt.closing (some 0))] }

def sysP8 : Sys :=
  { server := srvABc,
    sessions := [(2, SessSt.running (some 1)), (1, SessSt.running (some 0))] }

/-- Hub after session 1 (still authenticated as user 0) joins call 7. -/
def srvABd : WebSocketServer :=
  { connections := [(1, 2)], channel_subscriptions := [],
    user_statuses := [(0, UserStatus.offline), (1, UserStatus.online)],
    call_subscriptions := [(7, [0])], nextHandle := 3 }

def sysP9 : Sys :=
  { server := srvABd,
    sessions := [(2, SessSt.running (some 1)), (1, SessSt.running (some 0))] }

/-- Hub after session 2 (user 1) also joins call 7: the call subscription
set is [1, 0], but only user 1 has a handle in the Connection Registry. -/
def srvSplit : WebSocketServer :=
  { connections := [(1, 2)], channel_subscriptions := [],
    user_statuses := [(0, UserStatus.offline), (1, UserStatus.online)],
    call_subscriptions := [(7, [1, 0])], nextHandle := 3 }

def c1BadSys : Sys :=
  { server := srvSplit,
    sessions := [(2, SessSt.running (some 1)), (1, SessSt.running (some 0))] }

/-- The three WebRTC signaling variants, indexed so that one statement can
quantify over offer, answer and ICE candidate alike. -/
inductive SigKind where
  | offer
  | answer
  | ice
deriving DecidableEq, Repr

/-- Build the signaling frame of a given kind (the string is the SDP body
for offer/answer and the candidate for ICE). -/
def sigMsg : SigKind → Uuid → Uuid → String → WebSocketMessage
  | .offer, call_id, from_user_id, body => .webRTCOffer call_id from_user_id body
  | .answer, call_id, from_user_id, body => .webRTCAnswer call_id from_user_id body
  | .ice, call_id, from_user_id, body => .webRTCIceCandidate call_id from_user_id body

/-! ### Lemmas about the map and set helpers -/

theorem alistLookup_cons (k : Uuid) (a : Uuid × α) (t : List (Uuid × α)) :
    alistLookup k (a :: t) = if a.1 == k then some a.2 else alistLookup k t := by
  cases h : a.1 == k with
  | true => simp [alistLookup, List.find?, h]
  | false => simp [alistLookup, List.find?, h]

theorem alistLookup_insert_self (k : Uuid) (v : α) (l : List (Uuid × α)) :
    alistLookup k (alistInsert k v l) = some v := by
  induction l with
  | nil => simp [alistInsert, alistLookup_cons]
  | cons a t ih =>
    by_cases h : (a.1 == k) = true
    · simp [alistInsert, h, alistLookup_cons]
    · simp [alistInsert, h, alistLookup_cons, ih]

theorem alistLookup_insert_ne (k k' : Uuid) (v : α) (l : List (Uuid × α))
    (hne : k' ≠ k) :
    alistLookup k' (alistInsert k v l) = alistLookup k' l := by
  induction l with
  | nil =>
    have : (k == k') = false := by simpa using fun e => hne e.symm
    simp [alistInsert, alistLookup_cons, this]
  | cons a t ih =>
    by_cases h : (a.1 == k) = true
    · have ha : a.1 = k := by simpa using h
      have : (k == k') = false := by simpa using fun e => hne e.symm
      have ha' : (a.1 == k') = false := by
        simpa [ha] using fun e => hne e.symm
      simp [alistInsert, h, alistLookup_cons, this, ha']
    · simp [alistInsert, h, alistLookup_cons, ih]

theorem alistRemove_cons (k : Uuid) (a : Uuid × α) (t : List (Uuid × α)) :
    alistRemove k (a :: t)
      = if a.1 == k then alistRemove k t else a :: alistRemove k t := by
  by_cases h : (a.1 == k) = true <;>
    simp [alistRemove, List.filter_cons, bne, h]

theorem alistLookup_remove_self (k : Uuid) (l : List (Uuid × α)) :
    alistLookup k (alistRemove k l) = none := by
  induction l with
  | nil => rfl
  | cons a t ih =>
    rw [alistRemove_cons]
    by_cases h : (a.1 == k) = true
    · simp [h, ih]
    · simp [h, alistLookup_cons, ih]

theorem alistLookup_remove_ne (k k' : Uuid) (l : List (Uuid × α)) (hne : k' ≠ k) :
    alistLookup k' (alistRemove k l) = alistLookup k' l := by
  induction l with
  | nil => rfl
  | cons a t ih =>
    rw [alistRemove_cons]
    by_cases h : (a.1 == k) = true
    · have ha : a.1 = k := by simpa using h
      have ha' : (a.1 == k') = false := by
        simp [ha]
        exact fun e => hne e.symm
      simp [h, alistLookup_cons, ha', ih]
    · simp [h, alistLookup_cons, ih]

theorem mem_hsRemove (v u : Uuid) (s : List Uuid) :
    v ∈ hsRemove u s ↔ v ∈ s ∧ v ≠ u := by
  simp [hsRemove, List.mem_filter]

theorem hsRemove_eq_self (u : Uuid) (s : List Uuid) (h : u ∉ s) :
    hsRemove u s = s := by
  refine List.filter_eq_self.mpr (fun v hv => ?_)
  simp only [bne_iff_ne, ne_eq]
  exact fun e => h (e ▸ hv)

theorem hsRemove_idem (u : Uuid) (s : List Uuid) :
    hsRemove u (hsRemove u s) = hsRemove u s := by
  refine hsRemove_eq_self u _ (fun hmem => ?_)
  exact ((mem_hsRemove u u s).mp hmem).2 rfl

theorem alistInsert_insert_same (k : Uuid) (v : α) (l : List (Uuid × α)) :
    alistInsert k v (alistInsert k v l) = alistInsert k v l := by
  induction l with
  | nil => simp [alistInsert]
  | cons a t ih =>
    by_cases h : (a.1 == k) = true
    · simp [alistInsert, h]
    · simp [alistInsert, h, ih]

theorem alistRemove_eq_self (k : Uuid) (l : List (Uuid × α))
    (h : alistLookup k l = none) :
    alistRemove k l = l := by
  induction l with
  | nil => rfl
  | cons a t ih =>
    by_cases ha : (a.1 == k) = true
    · simp [alistLookup_cons, ha] at h
    · rw [alistLookup_cons] at h
      simp only [ha, if_false] at h
      rw [alistRemove_cons]
      simp [ha, ih h]

theorem alistRemove_idem (k : Uuid) (l : List (Uuid × α)) :
    alistRemove k (alistRemove k l) = alistRemove k l :=
  alistRemove_eq_self k _ (alistLookup_remove_self k l)

/-! ### Lemmas about fan-out -/

theorem fanout_nil (conns : List (Uuid × Nat)) (recvOk : Nat → Bool)
    (json : String) (ex : Option Uuid) :
    fanout conns recvOk json [] ex = [] := rfl

theorem fanout_cons_skip (conns : List (Uuid × Nat)) (recvOk : Nat → Bool)
    (json : String) (a : Uuid) (t : List Uuid) (ex : Option Uuid)
    (h : notExcluded ex a = false) :
    fanout conns recvOk json (a :: t) ex = fanout conns recvOk json t ex := by
  simp [fanout, List.filterMap_cons, h]

theorem fanout_cons_none (conns : List (Uuid × Nat)) (recvOk : Nat → Bool)
    (json : String) (a : Uuid) (t : List Uuid) (ex : Option Uuid)
    (h : notExcluded ex a = true) (hl : alistLookup a conns = none) :
    fanout conns recvOk json (a :: t) ex = fanout conns recvOk json t ex := by
  simp [fanout, List.filterMap_cons, h, hl]

theorem fanout_cons_some (conns : List (Uuid × Nat)) (recvOk : Nat → Bool)
    (json : String) (a : Uuid) (t : List Uuid) (ex : Option Uuid) (hdl : Nat)
    (h : notExcluded ex a = true) (hl : alistLookup a conns = some hdl) :
    fanout conns recvOk json (a :: t) ex
      = ⟨a, hdl, json, recvOk hdl⟩ :: fanout conns recvOk json t ex := by
  simp [fanout, List.filterMap_cons, h, hl]

theorem fanout_map_user (conns : List (Uuid × Nat)) (recvOk : Nat → Bool)
    (json : String) (mem : List Uuid) (ex : Option Uuid) :
    (fanout conns recvOk json mem ex).map Push.user
      = mem.filter (fun u => notExcluded ex u && (alistLookup u conns).isSome) := by
  induction mem with
  | nil => rfl
  | cons a t ih =>
    by_cases h : notExcluded ex a = true
    · cases hl : alistLookup a conns with
      | none =>
        rw [fanout_cons_none conns recvOk json a t ex h hl]
        simp [List.filter_cons, h, hl, ih]
      | some hdl =>
        rw [fanout_cons_some conns recvOk json a t ex hdl h hl]
        simp [List.filter_cons, h, hl, ih]
    · rw [fanout_cons_skip conns recvOk json a t ex (by simpa using h)]
      simp only [Bool.not_eq_true] at h
      simp [List.filter_cons, h, ih]

theorem mem_fanout (p : Push) (conns : List (Uuid × Nat)) (recvOk : Nat → Bool)
    (json : String) (mem : List Uuid) (ex : Option Uuid)
    (h : p ∈ fanout conns recvOk json mem ex) :
    p.user ∈ mem ∧ notExcluded ex p.user = true
      ∧ alistLookup p.user conns = some p.handle ∧ p.payload = json
      ∧ p.ok = recvOk p.handle := by
  simp only [fanout, List.mem_filterMap] at h
  obtain ⟨a, ha, hfa⟩ := h
  by_cases hex : notExcluded ex a = true
  · cases hl : alistLookup a conns with
    | none => simp [hex, hl] at hfa
    | some hdl =>
      rw [if_pos hex, hl] at hfa
      simp only [Option.map_some'] at hfa
      cases hfa
      exact ⟨ha, hex, hl, rfl, rfl⟩
  · simp [hex] at hfa

theorem mem_fanout_payload (p : Push) (conns : List (Uuid × Nat))
    (recvOk : Nat → Bool) (json : String) (mem : List Uuid) (ex : Option Uuid)
    (h : p ∈ fanout conns recvOk json mem ex) : p.payload = json :=
  (mem_fanout p conns recvOk json mem ex h).2.2.2.1

theorem mem_fanout_ne_excluded (p : Push) (conns : List (Uuid × Nat))
    (recvOk : Nat → Bool) (json : String) (mem : List Uuid) (e : Uuid)
    (h : p ∈ fanout conns recvOk json mem (some e)) : p.user ≠ e := by
  have := (mem_fanout p conns recvOk json mem (some e) h).2.1
  simp only [notExcluded] at this
  exact fun hEq => by simp [hEq] at this

theorem fanout_remove_filter (conns : List (Uuid × Nat)) (recvOk : Nat → Bool)
    (json : String) (mem : List Uuid) (ex : Option Uuid) (r : Uuid) :
    (fanout (alistRemove r conns) recvOk json mem ex).filter (fun p => p.user != r)
      = (fanout conns recvOk json mem ex).filter (fun p => p.user != r) := by
  induction mem with
  | nil => rfl
  | cons a t ih =>
    by_cases hex : notExcluded ex a = true
    · by_cases har : a = r
      · subst har
        rw [fanout_cons_none _ recvOk json a t ex hex (alistLookup_remove_self a conns)]
        cases hl : alistLookup a conns with
        | none => rw [fanout_cons_none conns recvOk json a t ex hex hl]; exact ih
        | some hdl =>
          rw [fanout_cons_some conns recvOk json a t ex hdl hex hl]
          rw [List.filter_cons]
          simp only [bne_self_eq_false, Bool.false_eq_true, if_false]
          exact ih
      · have hlook := alistLookup_remove_ne r a conns har
        cases hl : alistLookup a conns with
        | none =>
          rw [fanout_cons_none _ recvOk json a t ex hex (hlook.trans hl),
            fanout_cons_none conns recvOk json a t ex hex hl]
          exact ih
        | some hdl =>
          rw [fanout_cons_some _ recvOk json a t ex hdl hex (hlook.trans hl),
            fanout_cons_some conns recvOk json a t ex hdl hex hl]
          rw [List.filter_cons, List.filter_cons]
          have hbr : (a != r) = true := bne_iff_ne.mpr har
          simp only [hbr, if_true]
          rw [ih]
    · have hex' : notExcluded ex a = false := by simpa using hex
      rw [fanout_cons_skip _ recvOk json a t ex hex',
        fanout_cons_skip conns recvOk json a t ex hex']
      exact ih

theorem fanout_proj_recvOk (conns : List (Uuid × Nat)) (recvOk recvOk' : Nat → Bool)
    (json : String) (mem : List Uuid) (ex : Option Uuid) :
    (fanout conns recvOk json mem ex).map (fun p => (p.user, p.handle, p.payload))
      = (fanout conns recvOk' json mem ex).map (fun p => (p.user, p.handle, p.payload)) := by
  induction mem with
  | nil => rfl
  | cons a t ih =>
    by_cases hex : notExcluded ex a = true
    · cases hl : alistLookup a conns with
      | none =>
        rw [fanout_cons_none conns recvOk json a t ex hex hl,
          fanout_cons_none conns recvOk' json a t ex hex hl]
        exact ih
      | some hdl =>
        rw [fanout_cons_some conns recvOk json a t ex hdl hex hl,
          fanout_cons_some conns recvOk' json a t ex hdl hex hl]
        simpa using ih
    · have hex' : notExcluded ex a = false := by simpa using hex
      rw [fanout_cons_skip conns recvOk json a t ex hex',
        fanout_cons_skip conns recvOk' json a t ex hex']
      exact ih

/-! ### Further helper lemmas -/

theorem bne_comm_nat (a b : Uuid) : (a != b) = (b != a) := by
  by_cases h : a = b
  · subst h; rfl
  · rw [bne_iff_ne.mpr h, bne_iff_ne.mpr (Ne.symm h)]

theorem notExcluded_some (e u : Uuid) : notExcluded (some e) u = (u != e) := by
  simp only [notExcluded]
  exact bne_comm_nat e u

theorem alistLookup_mem (k : Uuid) (v : α) (l : List (Uuid × α))
    (h : alistLookup k l = some v) : (k, v) ∈ l := by
  induction l with
  | nil => simp [alistLookup] at h
  | cons a t ih =>
    obtain ⟨a1, a2⟩ := a
    rw [alistLookup_cons] at h
    by_cases ha : (a1 == k) = true
    · rw [if_pos ha] at h
      have hk : a1 = k := by simpa using ha
      have hv : a2 = v := by simpa using h
      subst hk
      subst hv
      exact List.mem_cons_self _ _
    · rw [if_neg ha] at h
      exact List.mem_cons_of_mem _ (ih h)

theorem alistLookup_map_value (f : α → β) (k : Uuid) (l : List (Uuid × α)) :
    alistLookup k (l.map (fun p => (p.1, f p.2))) = (alistLookup k l).map f := by
  induction l with
  | nil => rfl
  | cons a t ih =>
    by_cases ha : (a.1 == k) = true
    · simp [alistLookup_cons, ha]
    · simp only [List.map_cons]
      rw [alistLookup_cons, alistLookup_cons]
      simp only [ha]
      simpa using ih

theorem members_unregister (s : WebSocketServer) (u c : Uuid) :
    members (unregister s u) c = (members s c).filter (fun v => v != u) := by
  simp only [members, unregister, alistLookup_map_value]
  cases h : alistLookup c s.channel_subscriptions with
  | none => rfl
  | some set => rfl

theorem call_participants_unregister (s : WebSocketServer) (u c : Uuid) :
    get_call_participants (unregister s u) c
      = (get_call_participants s c).filter (fun v => v != u) := by
  simp only [get_call_participants, unregister, alistLookup_map_value]
  cases h : alistLookup c s.call_subscriptions with
  | none => rfl
  | some set => rfl

theorem mem_broadcast_to_channel (p : Push) (s : WebSocketServer) (ser : Ser)
    (recvOk : Nat → Bool) (c : Uuid) (msg : WebSocketMessage) (ex : Option Uuid)
    (h : p ∈ broadcast_to_channel s ser recvOk c msg ex) :
    p.user ∈ members s c ∧ notExcluded ex p.user = true
      ∧ alistLookup p.user s.connections = some p.handle
      ∧ ser msg = some p.payload := by
  unfold broadcast_to_channel at h
  cases hc : alistLookup c s.channel_subscriptions with
  | none => rw [hc] at h; simp at h
  | some subscribers =>
    rw [hc] at h
    cases hs : ser msg with
    | none => rw [hs] at h; simp at h
    | some json =>
      rw [hs] at h
      have := mem_fanout p s.connections recvOk json subscribers ex h
      refine ⟨?_, this.2.1, this.2.2.1, ?_⟩
      · simpa [members, hc] using this.1
      · rw [this.2.2.2.1]

theorem mem_send_to_call_participants (p : Push) (s : WebSocketServer) (ser : Ser)
    (recvOk : Nat → Bool) (c : Uuid) (msg : WebSocketMessage) (ex : Option Uuid)
    (h : p ∈ send_to_call_participants s ser recvOk c msg ex) :
    p.user ∈ get_call_participants s c ∧ notExcluded ex p.user = true
      ∧ alistLookup p.user s.connections = some p.handle
      ∧ ser msg = some p.payload := by
  unfold send_to_call_participants at h
  cases hc : alistLookup c s.call_subscriptions with
  | none => rw [hc] at h; simp at h
  | some participants =>
    rw [hc] at h
    cases hs : ser msg with
    | none => rw [hs] at h; simp at h
    | some json =>
      rw [hs] at h
      have := mem_fanout p s.connections recvOk json participants ex h
      refine ⟨?_, this.2.1, this.2.2.1, ?_⟩
      · simpa [get_call_participants, hc] using this.1
      · rw [this.2.2.2.1]

theorem mem_broadcast_to_all (p : Push) (s : WebSocketServer) (ser : Ser)
    (recvOk : Nat → Bool) (msg : WebSocketMessage) (ex : Option Uuid)
    (h : p ∈ broadcast_to_all s ser recvOk msg ex) :
    (p.user, p.handle) ∈ s.connections ∧ notExcluded ex p.user = true
      ∧ ser msg = some p.payload := by
  unfold broadcast_to_all at h
  cases hs : ser msg with
  | none => rw [hs] at h; simp at h
  | some json =>
    rw [hs] at h
    simp only [List.mem_filterMap] at h
    obtain ⟨a, ha, hfa⟩ := h
    by_cases hex : notExcluded ex a.1 = true
    · rw [if_pos hex] at hfa
      cases hfa
      exact ⟨ha, hex, rfl⟩
    · simp [hex] at hfa

theorem allFanout_map_user (l : List (Uuid × Nat)) (recvOk : Nat → Bool)
    (json : String) (ex : Option Uuid) :
    (l.filterMap (fun p =>
        if notExcluded ex p.1 then some (Push.mk p.1 p.2 json (recvOk p.2)) else none)).map
        Push.user
      = (l.map Prod.fst).filter (fun v => notExcluded ex v) := by
  induction l with
  | nil => rfl
  | cons a t ih =>
    by_cases hex : notExcluded ex a.1 = true
    · simp [List.filterMap_cons, hex, List.filter_cons, ih]
    · have hex' : notExcluded ex a.1 = false := by simpa using hex
      simp [List.filterMap_cons, hex', List.filter_cons, ih]

theorem broadcast_to_all_map_user (s : WebSocketServer) (ser : Ser)
    (recvOk : Nat → Bool) (msg : WebSocketMessage) (ex : Option Uuid)
    (json : String) (h : ser msg = some json) :
    (broadcast_to_all s ser recvOk msg ex).map Push.user
      = (s.connections.map Prod.fst).filter (fun v => notExcluded ex v) := by
  unfold broadcast_to_all
  rw [h]
  exact allFanout_map_user s.connections recvOk json ex

theorem forwardTask_append_closed (sendOk : String → Bool) (pre post : List RecvEvent) :
    forwardTask sendOk (pre ++ RecvEvent.closed :: post)
      = forwardTask sendOk (pre ++ [RecvEvent.closed]) := by
  induction pre with
  | nil => rfl
  | cons e t ih =>
    cases e with
    | item str =>
      by_cases h : sendOk str = true
      · simp [forwardTask, h, ih]
      · simp [forwardTask, h]
    | lagged n => simpa [forwardTask] using ih
    | closed => rfl

theorem forwardTask_closed_terminates (sendOk : String → Bool) (pre : List RecvEvent) :
    (forwardTask sendOk (pre ++ [RecvEvent.closed])).2 = true := by
  induction pre with
  | nil => rfl
  | cons e t ih =>
    cases e with
    | item str =>
      by_cases h : sendOk str = true
      · simp [forwardTask, h, ih]
      · simp [forwardTask, h]
    | lagged n => simpa [forwardTask] using ih
    | closed => rfl


/-! ### The claims -/

/-- C10: if serializing the outbound payload fails, `broadcast_to_channel`,
`broadcast_to_all` and `send_to_call_participants` return without pushing to
any recipient's handle; the hub state is unchanged (the three functions take
`&self` and, as their embeddings show by returning only pushes, never touch
a registry or subscription table). -/
theorem C10_serialize_failure_no_delivery
    (s : WebSocketServer) (ser : Ser) (recvOk : Nat → Bool)
    (msg : WebSocketMessage) (channel_id call_id : Uuid) (ex : Option Uuid)
    (h : ser msg = none) :
    broadcast_to_channel s ser recvOk channel_id msg ex = []
      ∧ broadcast_to_all s ser recvOk msg ex = []
      ∧ send_to_call_participants s ser recvOk call_id msg ex = [] := by
  refine ⟨?_, ?_, ?_⟩
  · unfold broadcast_to_channel
    cases hc : alistLookup channel_id s.channel_subscriptions <;> simp [h]
  · unfold broadcast_to_all
    simp [h]
  · unfold send_to_call_participants
    cases hc : alistLookup call_id s.call_subscriptions <;> simp [h]

/-- C10 witness: in the populated hub `srvW`, under the failing serializer,
none of the three fan-out operations pushes anything. -/
theorem C10_serialize_failure_no_delivery_witness :
    broadcast_to_channel srvW serNone recvOkTrue 5 msgW none = []
      ∧ broadcast_to_all srvW serNone recvOkTrue msgW none = []
      ∧ send_to_call_participants srvW serNone recvOkTrue 7 msgW none = [] :=
  C10_serialize_failure_no_delivery srvW serNone recvOkTrue msgW 5 7 none rfl

/-- C2: `broadcast_to_channel C payload (exclude := e)` pushes to exactly the
members of the subscriber set S of C, other than e, that have a handle in
the Connection Registry; every push carries the one serialized string (the
payload is serialized once and all recipients receive the identical string);
and delivery is independent per recipient: removing one recipient's
connection does not change the pushes to the others, and the set of
attempted pushes does not depend on any recipient's channel accepting the
send. -/
theorem C2_broadcast_exact_delivery
    (s : WebSocketServer) (ser : Ser) (recvOk : Nat → Bool) (channel_id : Uuid)
    (msg : WebSocketMessage) (e : Uuid) (json : String)
    (hser : ser msg = some json) :
    ((broadcast_to_channel s ser recvOk channel_id msg (some e)).map Push.user
        = (members s channel_id).filter
            (fun u => (u != e) && (alistLookup u s.connections).isSome))
    ∧ (∀ p ∈ broadcast_to_channel s ser recvOk channel_id msg (some e),
        p.payload = json)
    ∧ (∀ r : Uuid,
        ((broadcast_to_channel { s with connections := alistRemove r s.connections }
              ser recvOk channel_id msg (some e)).filter (fun p => p.user != r))
          = ((broadcast_to_channel s ser recvOk channel_id msg (some e)).filter
              (fun p => p.user != r)))
    ∧ (∀ recvOk' : Nat → Bool,
        ((broadcast_to_channel s ser recvOk' channel_id msg (some e)).map
            (fun p => (p.user, p.handle, p.payload)))
          = ((broadcast_to_channel s ser recvOk channel_id msg (some e)).map
              (fun p => (p.user, p.handle, p.payload)))) := by
  refine ⟨?_, ?_, ?_, ?_⟩
  · unfold broadcast_to_channel
    cases hc : alistLookup channel_id s.channel_subscriptions with
    | none => simp [members, hc]
    | some subscribers =>
      rw [hser]
      rw [fanout_map_user]
      simp only [members, hc, Option.getD_some]
      simp only [notExcluded_some]
  · intro p hp
    have := mem_broadcast_to_channel p s ser recvOk channel_id msg (some e) hp
    have hps := this.2.2.2
    rw [hser] at hps
    exact (Option.some.injEq _ _).mp hps.symm
  · intro r
    unfold broadcast_to_channel
    cases hc : alistLookup channel_id s.channel_subscriptions with
    | none => simp
    | some subscribers =>
      rw [hser]
      exact fanout_remove_filter s.connections recvOk json subscribers (some e) r
  · intro recvOk'
    unfold broadcast_to_channel
    cases hc : alistLookup channel_id s.channel_subscriptions with
    | none => simp
    | some subscribers =>
      rw [hser]
      exact fanout_proj_recvOk s.connections recvOk' recvOk json subscribers (some e)

/-- C2 witness: broadcasting `msgW` on channel 5 of `srvW` excluding user 0
pushes exactly to user 1, with the serialized string "w". -/
theorem C2_broadcast_exact_delivery_witness :
    ((broadcast_to_channel srvW serConst recvOkTrue 5 msgW (some 0)).map Push.user
        = (members srvW 5).filter
            (fun u => (u != 0) && (alistLookup u srvW.connections).isSome))
    ∧ (∀ p ∈ broadcast_to_channel srvW serConst recvOkTrue 5 msgW (some 0),
        p.payload = "w") := by
  have h := C2_broadcast_exact_delivery srvW serConst recvOkTrue 5 msgW 0 "w" rfl
  exact ⟨h.1, h.2.1⟩


/-- C1 counterexample: the hub state `c1BadSys` is reachable (user 0's first
session closes while its second survives and rejoins call 7, then user 1's
session joins the same call), its call-7 subscription set contains user 0 —
a non-sender — yet an offer processed for authenticated user 1 on call 7
produces no push at all: user 0, a member of the call subscription set other
than the sender, receives nothing, refuting "delivered to every user in the
call subscription set of c except u". -/
theorem C1_counterexample :
    Reachable c1BadSys
      ∧ (0 : Uuid) ∈ get_call_participants srvSplit 7
      ∧ (0 : Uuid) ≠ 1
      ∧ (handle_text env0 serConst recvOkTrue srvSplit (some 1)
            (.webRTCOffer 7 1 "v=0")).pushes = [] := by
  refine ⟨?_, by decide, by decide, rfl⟩
  have t1 : Step initSys sys1 := Step.spawn initSys 0 rfl
  have t2 : Step sys1 sys2 := Step.spawn sys1 1 rfl
  have t3 : Step sys2 sysP3 := Step.spawn sys2 2 rfl
  have t4 : Step sysP3 sysP4 :=
    Step.text sysP3 0 none (.authenticate "t") env3 serNone recvOkTrue rfl
  have t5 : Step sysP4 sysP5 :=
    Step.text sysP4 1 none (.authenticate "t") env3 serNone recvOkTrue rfl
  have t6 : Step sysP5 sysP6 :=
    Step.text sysP5 2 none (.authenticate "t") envOk1 serNone recvOkTrue rfl
  have t7 : Step sysP6 sysP7 :=
    Step.close_frame sysP6 0 (some 0) serNone recvOkTrue rfl
  have t8 : Step sysP7 sysP8 := Step.cleanup sysP7 0 (some 0) rfl
  have t9 : Step sysP8 sysP9 :=
    Step.text sysP8 1 (some 0) (.joinCall 7) env3 serNone recvOkTrue rfl
  have t10 : Step sysP9 c1BadSys :=
    Step.text sysP9 2 (some 1) (.joinCall 7) env3 serNone recvOkTrue rfl
  exact Relation.ReflTransGen.tail
    (Relation.ReflTransGen.tail
      (Relation.ReflTransGen.tail
        (Relation.ReflTransGen.tail
          (Relation.ReflTransGen.tail
            (Relation.ReflTransGen.tail
              (Relation.ReflTransGen.tail
                (Relation.ReflTransGen.tail
                  (Relation.ReflTransGen.tail
                    (Relation.ReflTransGen.single t1) t2) t3) t4) t5) t6) t7)
        t8) t9) t10

/-- C1 amended: an inbound signaling frame (offer, answer or ICE candidate)
processed by a session authenticated as `u` is relayed with `from_user_id`
authoritatively set to `u`, whatever the client supplied; `u` is never among
the recipients; and the frame is pushed to exactly the members of the call's
subscription set, other than `u`, that have a handle in the Connection
Registry — a subscribed user without a handle (possible after a dual-session
close, as the counterexample's reachable state shows) receives nothing —
each push carrying the serialization of the re-stamped frame. -/
theorem C1_signaling_restamped_exact_delivery
    (env : CollabEnv) (ser : Ser) (recvOk : Nat → Bool) (s : WebSocketServer)
    (u : Uuid) (k : SigKind) (call_id clientFrom : Uuid) (body json : String)
    (hser : ser (sigMsg k call_id u body) = some json) :
    ((handle_text env ser recvOk s (some u) (sigMsg k call_id clientFrom body)).pushes
        = send_to_call_participants s ser recvOk call_id
            (sigMsg k call_id u body) (some u))
    ∧ (∀ p ∈ (handle_text env ser recvOk s (some u)
          (sigMsg k call_id clientFrom body)).pushes,
        p.user ≠ u ∧ p.payload = json)
    ∧ (((handle_text env ser recvOk s (some u)
          (sigMsg k call_id clientFrom body)).pushes.map Push.user)
        = (get_call_participants s call_id).filter
            (fun m => (m != u) && (alistLookup m s.connections).isSome)) := by
  have harm : (handle_text env ser recvOk s (some u)
      (sigMsg k call_id clientFrom body)).pushes
      = send_to_call_participants s ser recvOk call_id
          (sigMsg k call_id u body) (some u) := by
    cases k <;> rfl
  refine ⟨harm, ?_, ?_⟩
  · intro p hp
    rw [harm] at hp
    have := mem_send_to_call_participants p s ser recvOk call_id
      (sigMsg k call_id u body) (some u) hp
    refine ⟨?_, ?_⟩
    · have h2 := this.2.1
      simp only [notExcluded] at h2
      exact fun hEq => by simp [hEq] at h2
    · have hps := this.2.2.2
      rw [hser] at hps
      exact (Option.some.injEq _ _).mp hps.symm
  · rw [harm]
    unfold send_to_call_participants
    cases hc : alistLookup call_id s.call_subscriptions with
    | none => simp [get_call_participants, hc]
    | some participants =>
      rw [hser, fanout_map_user]
      simp only [get_call_participants, hc, Option.getD_some]
      simp only [notExcluded_some]

/-- C1 amended witness: in `srvW` (users 0 and 1 both subscribed to call 7
and both connected), an offer from user 0 claiming to come from user 99 is
relayed re-stamped as coming from 0, to exactly the connected members other
than 0. -/
theorem C1_signaling_restamped_exact_delivery_witness :
    ((handle_text env0 serConst recvOkTrue srvW (some 0)
        (sigMsg .offer 7 99 "v=0")).pushes
      = send_to_call_participants srvW serConst recvOkTrue 7
          (sigMsg .offer 7 0 "v=0") (some 0))
    ∧ (((handle_text env0 serConst recvOkTrue srvW (some 0)
          (sigMsg .offer 7 99 "v=0")).pushes.map Push.user)
        = (get_call_participants srvW 7).filter
            (fun m => (m != 0) && (alistLookup m srvW.connections).isSome)) := by
  have h := C1_signaling_restamped_exact_delivery env0 serConst recvOkTrue srvW 0
    SigKind.offer 7 99 "v=0" "w" rfl
  exact ⟨h.1, h.2.2⟩

/-- C5 counterexample: a `JoinChannel` frame received while the session is
unauthenticated produces no reply at all — the source arm only logs — so the
claim that the session "replies with an Error frame to the client" is false
(here with a serializer under which every frame would serialize, so the
empty reply list is not a serialization artifact). -/
theorem C5_counterexample :
    (handle_text env0 serConst recvOkTrue WebSocketServer.new none
        (.joinChannel 0)).replies = [] := rfl

/-- C5 amended: every inbound frame other than `Authenticate` received while
the session is unauthenticated is silently ignored (logged at most): the
session sends no reply — in particular no Error frame — performs no registry
or subscription mutation and no broadcast, the session stays
unauthenticated, and the connection stays open. -/
theorem C5_unauthenticated_frames_ignored
    (env : CollabEnv) (ser : Ser) (recvOk : Nat → Bool) (s : WebSocketServer)
    (msg : WebSocketMessage) (hmsg : ∀ token, msg ≠ .authenticate token) :
    (handle_text env ser recvOk s none msg).server = s
      ∧ (handle_text env ser recvOk s none msg).replies = []
      ∧ (handle_text env ser recvOk s none msg).pushes = []
      ∧ (handle_text env ser recvOk s none msg).user_id = none
      ∧ (handle_text env ser recvOk s none msg).spawned = none
      ∧ (handle_text env ser recvOk s none msg).closed = false := by
  cases msg with
  | authenticate token => exact absurd rfl (hmsg token)
  | _ => exact ⟨rfl, rfl, rfl, rfl, rfl, rfl⟩

/-- C5 witness: the amended claim applied to a `JoinCall` frame on the
populated hub. -/
theorem C5_unauthenticated_frames_ignored_witness :
    (handle_text env0 serConst recvOkTrue srvW none (.joinCall 7)).server = srvW
      ∧ (handle_text env0 serConst recvOkTrue srvW none (.joinCall 7)).replies = []
      ∧ (handle_text env0 serConst recvOkTrue srvW none (.joinCall 7)).pushes = []
      ∧ (handle_text env0 serConst recvOkTrue srvW none (.joinCall 7)).user_id = none
      ∧ (handle_text env0 serConst recvOkTrue srvW none (.joinCall 7)).spawned = none
      ∧ (handle_text env0 serConst recvOkTrue srvW none (.joinCall 7)).closed = false :=
  C5_unauthenticated_frames_ignored env0 serConst recvOkTrue srvW (.joinCall 7)
    (fun _token h => WebSocketMessage.noConfusion h)

/-- C4 counterexample: under a collaborator table whose membership check
reports non-membership for every query, a `JoinCall` frame from an
authenticated user still inserts the user into the call subscription table —
the `JoinCall` arm never consults the collaborator — so the claim that
"JoinChannel and JoinCall alike" subscribe only after the collaborator
confirms membership is false. -/
theorem C4_counterexample :
    envNoMember.is_member 5 0 = Except.ok false
      ∧ (handle_text envNoMember serConst recvOkTrue WebSocketServer.new
            (some 0) (.joinCall 5)).server.call_subscriptions = [(5, [0])] :=
  ⟨rfl, rfl⟩

/-- C4 amended: `JoinChannel` is gated on the membership collaborator — the
user is subscribed exactly when the collaborator returns a confirmation, and
on non-membership or collaborator failure the hub state is unchanged and
nothing is broadcast or replied — whereas `JoinCall` subscribes the user to
the call unconditionally, without consulting the collaborator (and
broadcasts no notice either way). -/
theorem C4_join_gating
    (env : CollabEnv) (ser : Ser) (recvOk : Nat → Bool) (s : WebSocketServer)
    (u channel_id call_id : Uuid) :
    ((env.is_member channel_id u ≠ Except.ok true) →
        (handle_text env ser recvOk s (some u) (.joinChannel channel_id)).server = s
          ∧ (handle_text env ser recvOk s (some u) (.joinChannel channel_id)).pushes = []
          ∧ (handle_text env ser recvOk s (some u) (.joinChannel channel_id)).replies = [])
    ∧ (env.is_member channel_id u = Except.ok true →
        (handle_text env ser recvOk s (some u) (.joinChannel channel_id)).server
          = subscribe_to_channel s channel_id u)
    ∧ ((handle_text env ser recvOk s (some u) (.joinCall call_id)).server
          = subscribe_to_call s call_id u
        ∧ (handle_text env ser recvOk s (some u) (.joinCall call_id)).pushes = []
        ∧ (handle_text env ser recvOk s (some u) (.joinCall call_id)).replies = []) := by
  refine ⟨?_, ?_, rfl, rfl, rfl⟩
  · intro hne
    cases hm : env.is_member channel_id u with
    | ok b =>
      cases b with
      | true => exact absurd hm hne
      | false => simp [handle_text, hm, StepResult.none_]
    | error e => simp [handle_text, hm, StepResult.none_]
  · intro hm
    cases hg : env.get_user u with
    | none => simp [handle_text, hm, hg, StepResult.none_]
    | some user => simp [handle_text, hm, hg, StepResult.none_]

/-- C4 witness: the amended claim applied concretely — a refused
`JoinChannel` leaves `srvW` unchanged, a confirmed one subscribes, and a
`JoinCall` subscribes under the always-refusing collaborator table. -/
theorem C4_join_gating_witness :
    ((handle_text envNoMember serConst recvOkTrue srvW (some 0)
        (.joinChannel 9)).server = srvW)
    ∧ ((handle_text env0 serConst recvOkTrue srvW (some 0)
        (.joinChannel 9)).server = subscribe_to_channel srvW 9 0)
    ∧ ((handle_text envNoMember serConst recvOkTrue srvW (some 0)
        (.joinCall 9)).server = subscribe_to_call srvW 9 0) := by
  refine ⟨?_, ?_, ?_⟩
  · exact ((C4_join_gating envNoMember serConst recvOkTrue srvW 0 9 9).1
      (fun h => Bool.noConfusion (Except.ok.inj h))).1
  · exact (C4_join_gating env0 serConst recvOkTrue srvW 0 9 9).2.1 rfl
  · exact (C4_join_gating envNoMember serConst recvOkTrue srvW 0 9 9).2.2.1

/-- Auxiliary: the in-place update of `unsubscribe_from_channel` leaves a
table untouched when no entry carries the targeted key. -/
theorem map_unsub_id (c u : Uuid) (t : List (Uuid × List Uuid))
    (h : ∀ p ∈ t, (p.1 == c) = false) :
    t.map (fun p => if p.1 == c then (p.1, hsRemove u p.2) else p) = t := by
  induction t with
  | nil => rfl
  | cons b r ih =>
    rw [List.map_cons, if_neg (by simp [h b (List.mem_cons_self b r)]),
      ih (fun p hp => h p (List.mem_cons_of_mem b hp))]

/-- Auxiliary: unsubscribing a user that is not in the channel's subscriber
set leaves the hub state literally unchanged (key-unique table). -/
theorem unsubscribe_absent_eq_self (s : WebSocketServer) (channel_id u : Uuid)
    (hmem : u ∉ members s channel_id)
    (hnd : (s.channel_subscriptions.map Prod.fst).Nodup) :
    unsubscribe_from_channel s channel_id u = s := by
  have core : ∀ (l : List (Uuid × List Uuid)), (l.map Prod.fst).Nodup →
      u ∉ (alistLookup channel_id l).getD [] →
      l.map (fun p => if p.1 == channel_id then (p.1, hsRemove u p.2) else p) = l := by
    intro l
    induction l with
    | nil => intro _ _; rfl
    | cons a t ih =>
      intro hnd' hmem'
      have hnd2 : (a.1 :: t.map Prod.fst).Nodup := by simpa using hnd'
      by_cases hac : (a.1 == channel_id) = true
      · have hkey : a.1 = channel_id := by simpa using hac
        have hlook : alistLookup channel_id (a :: t) = some a.2 := by
          rw [alistLookup_cons, if_pos hac]
        rw [hlook] at hmem'
        simp only [Option.getD_some] at hmem'
        have hset : hsRemove u a.2 = a.2 := hsRemove_eq_self u a.2 hmem'
        have htail : ∀ p ∈ t, (p.1 == channel_id) = false := by
          intro p hp
          have hnk : a.1 ∉ t.map Prod.fst := (List.nodup_cons.mp hnd2).1
          have : p.1 ≠ channel_id := by
            intro hEq
            exact hnk (by
              rw [hkey, ← hEq]
              exact List.mem_map_of_mem Prod.fst hp)
          simpa using this
        rw [List.map_cons, if_pos hac, hset, map_unsub_id channel_id u t htail]
      · have hlook : alistLookup channel_id (a :: t) = alistLookup channel_id t := by
          rw [alistLookup_cons, if_neg hac]
        rw [hlook] at hmem'
        rw [List.map_cons, if_neg hac, ih (List.nodup_cons.mp hnd2).2 hmem']
  cases s
  simp only [unsubscribe_from_channel, members] at hmem ⊢
  rw [core _ hnd hmem]

/-- Auxiliary: a second `unregister` for the same user is literally a
no-op. -/
theorem unregister_idem (s : WebSocketServer) (u : Uuid) :
    unregister (unregister s u) u = unregister s u := by
  simp [unregister, alistRemove_idem, alistInsert_insert_same, List.map_map,
    Function.comp, hsRemove_idem]

/-- C7 counterexample: a hub state in which user 0 has a status entry
(`Busy`) but no connection handle; `unregister 0` — the claim's
"unregister(u) when u has no handle" — changes the observable
`get_user_status` from `Busy` to `Offline`, so it is not free of observable
effect. (The state is reachable in the running system: a user logged in from
two sessions sets a status after the first session closes.) -/
theorem C7_counterexample :
    alistLookup 0 srvBusy.connections = none
      ∧ get_user_status srvBusy 0 = UserStatus.busy
      ∧ get_user_status (unregister srvBusy 0) 0 = UserStatus.offline :=
  ⟨rfl, rfl, rfl⟩

/-- C7 amended: `unsubscribe_from_channel(C, u)` with u not in C's
subscriber set leaves the hub state literally (hence observably) unchanged
and does not error; `unregister(u)` never errors and, when u has no handle,
leaves the Connection Registry unchanged — but it still forces u's status to
`Offline` and purges u from the subscription tables, so it is a full no-op
only once u is already cleaned up: in particular a second `unregister`
immediately after a first is literally a no-op. -/
theorem C7_idempotent_removals
    (s : WebSocketServer) (channel_id u : Uuid)
    (hmem : u ∉ members s channel_id)
    (hnd : (s.channel_subscriptions.map Prod.fst).Nodup) :
    unsubscribe_from_channel s channel_id u = s
    ∧ (∀ s' : WebSocketServer, ∀ u' : Uuid,
        unregister (unregister s' u') u' = unregister s' u')
    ∧ (∀ s' : WebSocketServer, ∀ u' : Uuid,
        alistLookup u' s'.connections = none →
          (unregister s' u').connections = s'.connections)
    ∧ (∀ s' : WebSocketServer, ∀ u' : Uuid,
        get_user_status (unregister s' u') u' = UserStatus.offline) := by
  refine ⟨unsubscribe_absent_eq_self s channel_id u hmem hnd,
    fun s' u' => unregister_idem s' u', fun s' u' h => ?_, fun s' u' => ?_⟩
  · simp only [unregister]
    exact alistRemove_eq_self u' s'.connections h
  · simp [get_user_status, unregister, alistLookup_insert_self]

/-- C7 witness: the amended claim applied to `srvW` (user 2 absent from
channel 5; user 0's second unregister a no-op). -/
theorem C7_idempotent_removals_witness :
    unsubscribe_from_channel srvW 5 2 = srvW
      ∧ unregister (unregister srvW 0) 0 = unregister srvW 0
      ∧ get_user_status (unregister srvW 0) 0 = UserStatus.offline := by
  have h := C7_idempotent_removals srvW 5 2 (by decide) (by decide)
  exact ⟨h.1, h.2.1 srvW 0, h.2.2.2 srvW 0⟩

/-- Auxiliary: after an insert into a key-unique table, the inserted key's
entries are exactly the one new entry. -/
theorem filter_key_alistInsert (k : Uuid) (v : α) (l : List (Uuid × α))
    (hnd : (l.map Prod.fst).Nodup) :
    (alistInsert k v l).filter (fun p => p.1 == k) = [(k, v)] := by
  induction l with
  | nil => simp [alistInsert, List.filter_cons]
  | cons a t ih =>
    have hnd2 : (a.1 :: t.map Prod.fst).Nodup := by simpa using hnd
    by_cases hac : (a.1 == k) = true
    · have hkey : a.1 = k := by simpa using hac
      have hnk : a.1 ∉ t.map Prod.fst := (List.nodup_cons.mp hnd2).1
      have htail : t.filter (fun p => p.1 == k) = [] := by
        rw [List.filter_eq_nil_iff]
        intro p hp
        simp only [Bool.not_eq_true, beq_eq_false_iff_ne, ne_eq]
        intro hEq
        exact hnk (by
          rw [hkey, ← hEq]
          exact List.mem_map_of_mem Prod.fst hp)
      simp [alistInsert, hac, List.filter_cons, htail]
    · simp only [alistInsert, hac, Bool.false_eq_true, if_false]
      rw [List.filter_cons]
      simp only [hac, Bool.false_eq_true, if_false]
      exact ih (List.nodup_cons.mp hnd2).2

/-- C8: a second `register` for an already-registered user replaces the
prior handle: the new handle is distinct from the old one, the registry then
holds exactly one entry for the user (the new handle), every subsequent
`send_to_user` or broadcast push addressed to that user goes to the new
handle only, and the forwarding task draining the replaced handle stops at
the point its channel reports closure (never consuming past it). -/
theorem C8_register_last_write_wins
    (s : WebSocketServer) (u : Uuid) (hOld : Nat)
    (hold : alistLookup u s.connections = some hOld)
    (hwf : ∀ p ∈ s.connections, p.2 < s.nextHandle)
    (hnd : (s.connections.map Prod.fst).Nodup) :
    (register s u).2 ≠ hOld
    ∧ alistLookup u (register s u).1.connections = some (register s u).2
    ∧ (register s u).1.connections.filter (fun p => p.1 == u)
        = [(u, (register s u).2)]
    ∧ (∀ ser recvOk msg json, ser msg = some json →
        send_to_user (register s u).1 ser recvOk u msg
          = [⟨u, (register s u).2, json, recvOk (register s u).2⟩])
    ∧ (∀ ser recvOk msg ex p,
        p ∈ broadcast_to_all (register s u).1 ser recvOk msg ex →
        p.user = u → p.handle = (register s u).2)
    ∧ (∀ ser recvOk c msg ex p,
        p ∈ broadcast_to_channel (register s u).1 ser recvOk c msg ex →
        p.user = u → p.handle = (register s u).2)
    ∧ (∀ ser recvOk c msg ex p,
        p ∈ send_to_call_participants (register s u).1 ser recvOk c msg ex →
        p.user = u → p.handle = (register s u).2)
    ∧ (∀ sendOk pre post,
        forwardTask sendOk (pre ++ RecvEvent.closed :: post)
          = forwardTask sendOk (pre ++ [RecvEvent.closed])
        ∧ (forwardTask sendOk (pre ++ [RecvEvent.closed])).2 = true) := by
  have hlookNew : alistLookup u (register s u).1.connections = some (register s u).2 := by
    simp only [register]
    exact alistLookup_insert_self u s.nextHandle s.connections
  refine ⟨?_, hlookNew, ?_, ?_, ?_, ?_, ?_, ?_⟩
  · have h1 : hOld < s.nextHandle := hwf (u, hOld) (alistLookup_mem u hOld s.connections hold)
    exact Ne.symm (Nat.ne_of_lt h1)
  · simp only [register]
    exact filter_key_alistInsert u s.nextHandle s.connections hnd
  · intro ser recvOk msg json hser
    unfold send_to_user
    rw [hlookNew, hser]
  · intro ser recvOk msg ex p hp hpu
    have hm := (mem_broadcast_to_all p (register s u).1 ser recvOk msg ex hp).1
    rw [hpu] at hm
    have hin : (u, p.handle) ∈ (register s u).1.connections.filter (fun q => q.1 == u) :=
      List.mem_filter.mpr ⟨hm, by simp⟩
    rw [show (register s u).1.connections.filter (fun q => q.1 == u)
        = [(u, (register s u).2)] from by
      simp only [register]
      exact filter_key_alistInsert u s.nextHandle s.connections hnd] at hin
    simpa using (List.mem_singleton.mp hin)
  · intro ser recvOk c msg ex p hp hpu
    have hm := (mem_broadcast_to_channel p (register s u).1 ser recvOk c msg ex hp).2.2.1
    rw [hpu, hlookNew] at hm
    exact ((Option.some.injEq _ _).mp hm).symm
  · intro ser recvOk c msg ex p hp hpu
    have hm := (mem_send_to_call_participants p (register s u).1 ser recvOk c msg ex hp).2.2.1
    rw [hpu, hlookNew] at hm
    exact ((Option.some.injEq _ _).mp hm).symm
  · intro sendOk pre post
    exact ⟨forwardTask_append_closed sendOk pre post,
      forwardTask_closed_terminates sendOk pre⟩

/-- C8 witness: re-registering user 0 in `srvW` (old handle 0) yields fresh
handle 2, a single registry entry, and `send_to_user` addresses only the new
handle; a forwarding-task trace stops at the closure event. -/
theorem C8_register_last_write_wins_witness :
    (register srvW 0).2 ≠ 0
      ∧ (register srvW 0).1.connections.filter (fun p => p.1 == 0)
          = [(0, (register srvW 0).2)]
      ∧ send_to_user (register srvW 0).1 serConst recvOkTrue 0 msgW
          = [⟨0, (register srvW 0).2, "w", recvOkTrue (register srvW 0).2⟩]
      ∧ forwardTask (fun _ => true)
          ([RecvEvent.item "a", RecvEvent.lagged 3] ++ RecvEvent.closed
              :: [RecvEvent.item "b"])
          = forwardTask (fun _ => true)
              ([RecvEvent.item "a", RecvEvent.lagged 3] ++ [RecvEvent.closed]) := by
  have h := C8_register_last_write_wins srvW 0 0 rfl (by decide) (by decide)
  exact ⟨h.1, h.2.2.1, h.2.2.2.1 serConst recvOkTrue msgW "w" rfl,
    (h.2.2.2.2.2.2.2 (fun _ => true) [RecvEvent.item "a", RecvEvent.lagged 3]
      [RecvEvent.item "b"]).1⟩

/-- Auxiliary: `unregister u` does not touch another user's connection
entry. -/
theorem unregister_other_conn (s : WebSocketServer) (u v : Uuid) (hne : v ≠ u) :
    alistLookup v (unregister s u).connections = alistLookup v s.connections := by
  simp only [unregister]
  exact alistLookup_remove_ne u v s.connections hne

/-- Auxiliary: `unregister u` does not touch another user's status. -/
theorem unregister_other_status (s : WebSocketServer) (u v : Uuid) (hne : v ≠ u) :
    get_user_status (unregister s u) v = get_user_status s v := by
  simp only [get_user_status, unregister]
  rw [alistLookup_insert_ne u v UserStatus.offline s.user_statuses hne]

/-- Auxiliary: `unregister u` does not change another user's channel
subscriptions. -/
theorem unregister_other_members (s : WebSocketServer) (u v c : Uuid) (hne : v ≠ u) :
    (v ∈ members (unregister s u) c ↔ v ∈ members s c) := by
  rw [members_unregister]
  simp [List.mem_filter, hne]

/-- Auxiliary: `unregister u` does not change another user's call
subscriptions. -/
theorem unregister_other_call_members (s : WebSocketServer) (u v c : Uuid)
    (hne : v ≠ u) :
    (v ∈ get_call_participants (unregister s u) c
      ↔ v ∈ get_call_participants s c) := by
  rw [call_participants_unregister]
  simp [List.mem_filter, hne]

/-- C9: when a session already authenticated as `u1` processes a second
`Authenticate` frame whose token verifies as `u2 ≠ u1`, the session identity
becomes `u2`, a fresh handle is registered for `u2` with a new forwarding
task — and `u1` is never deregistered: its connection entry, status, and
subscription-set entries are untouched, both by the re-authentication and by
this connection's eventual close (whose cleanup unregisters only `u2`). -/
theorem C9_reauthentication_orphans_first_user
    (env : CollabEnv) (ser : Ser) (recvOk : Nat → Bool) (s : WebSocketServer)
    (u1 u2 : Uuid) (token : String)
    (hv : env.verify_access_token token = Except.ok u2) (hne : u1 ≠ u2) :
    (handle_text env ser recvOk s (some u1) (.authenticate token)).user_id = some u2
    ∧ (handle_text env ser recvOk s (some u1) (.authenticate token)).spawned
        = some s.nextHandle
    ∧ (handle_text env ser recvOk s (some u1) (.authenticate token)).server
        = (register s u2).1
    ∧ alistLookup u1 (register s u2).1.connections = alistLookup u1 s.connections
    ∧ get_user_status (register s u2).1 u1 = get_user_status s u1
    ∧ (register s u2).1.channel_subscriptions = s.channel_subscriptions
    ∧ (register s u2).1.call_subscriptions = s.call_subscriptions
    ∧ session_cleanup
          (handle_close_msg ser recvOk (register s u2).1 (some u2)).server (some u2)
        = unregister (register s u2).1 u2
    ∧ alistLookup u1 (unregister (register s u2).1 u2).connections
        = alistLookup u1 s.connections
    ∧ get_user_status (unregister (register s u2).1 u2) u1 = get_user_status s u1
    ∧ (∀ c, u1 ∈ members (unregister (register s u2).1 u2) c ↔ u1 ∈ members s c)
    ∧ (∀ c, u1 ∈ get_call_participants (unregister (register s u2).1 u2) c
        ↔ u1 ∈ get_call_participants s c) := by
  have hrc : alistLookup u1 (register s u2).1.connections
      = alistLookup u1 s.connections := by
    simp only [register]
    exact alistLookup_insert_ne u2 u1 s.nextHandle s.connections hne
  have hrs : get_user_status (register s u2).1 u1 = get_user_status s u1 := by
    simp only [get_user_status, register]
    rw [alistLookup_insert_ne u2 u1 UserStatus.online s.user_statuses hne]
  refine ⟨by simp [handle_text, hv], by simp [handle_text, hv, register],
    by simp [handle_text, hv], hrc, hrs, rfl, rfl, ?_, ?_, ?_, ?_, ?_⟩
  · simp only [handle_close_msg, session_cleanup]
    exact unregister_idem (register s u2).1 u2
  · rw [unregister_other_conn (register s u2).1 u2 u1 hne]
    exact hrc
  · rw [unregister_other_status (register s u2).1 u2 u1 hne]
    exact hrs
  · intro c
    rw [unregister_other_members (register s u2).1 u2 u1 c hne]
    exact Iff.rfl
  · intro c
    rw [unregister_other_call_members (register s u2).1 u2 u1 c hne]
    exact Iff.rfl

/-- C9 witness: in `srvW` with user 1's session re-authenticating as user 2,
user 1's handle and channel membership survive the re-authentication and the
subsequent close. -/
theorem C9_reauthentication_orphans_first_user_witness :
    (handle_text env3C9 serConst recvOkTrue srvW (some 1)
        (.authenticate "t")).user_id = some 2
      ∧ alistLookup 1 (unregister (register srvW 2).1 2).connections
          = alistLookup 1 srvW.connections
      ∧ (1 ∈ members (unregister (register srvW 2).1 2) 5 ↔ 1 ∈ members srvW 5) := by
  have h := C9_reauthentication_orphans_first_user env3C9 serConst recvOkTrue srvW
    1 2 "t" rfl (by decide)
  exact ⟨h.1, h.2.2.2.2.2.2.2.2.1, h.2.2.2.2.2.2.2.2.2.2.1 5⟩

/-- C6: on a transport-level `Close` frame for a session authenticated as
`u`, the hub forces `u`'s presence to offline, removes `u` from every
channel and call subscription set and from the Connection Registry, breaks
the read loop, and broadcasts the `UserStatusChanged(offline)` notice to
every other connected user exactly once (the post-loop cleanup repeats the
unregister with no further broadcast and leaves the state unchanged). -/
theorem C6_close_cleanup_and_offline_notice
    (ser : Ser) (recvOk : Nat → Bool) (s : WebSocketServer) (u : Uuid)
    (json : String)
    (hser : ser (.userStatusChanged u UserStatus.offline none) = some json)
    (hnd : (s.connections.map Prod.fst).Nodup) :
    (handle_close_msg ser recvOk s (some u)).closed = true
    ∧ get_user_status (handle_close_msg ser recvOk s (some u)).server u
        = UserStatus.offline
    ∧ alistLookup u (handle_close_msg ser recvOk s (some u)).server.connections = none
    ∧ (∀ c, u ∉ members (handle_close_msg ser recvOk s (some u)).server c)
    ∧ (∀ c, u ∉ get_call_participants (handle_close_msg ser recvOk s (some u)).server c)
    ∧ (∀ p ∈ (handle_close_msg ser recvOk s (some u)).pushes,
        p.payload = json ∧ p.user ≠ u)
    ∧ (∀ v, v ≠ u → (alistLookup v s.connections).isSome = true →
        ((handle_close_msg ser recvOk s (some u)).pushes.map Push.user).count v = 1)
    ∧ ((handle_close_msg ser recvOk s (some u)).pushes.map Push.user).count u = 0
    ∧ session_cleanup (handle_close_msg ser recvOk s (some u)).server (some u)
        = (handle_close_msg ser recvOk s (some u)).server := by
  have husers : ((handle_close_msg ser recvOk s (some u)).pushes.map Push.user)
      = ((unregister s u).connections.map Prod.fst).filter
          (fun v => notExcluded (some u) v) := by
    simp only [handle_close_msg]
    exact broadcast_to_all_map_user (unregister s u) ser recvOk
      (.userStatusChanged u UserStatus.offline none) (some u) json hser
  have hndRem : ((unregister s u).connections.map Prod.fst).Nodup := by
    simp only [unregister, alistRemove]
    exact ((List.filter_sublist s.connections).map Prod.fst).nodup hnd
  have hndFil : (((unregister s u).connections.map Prod.fst).filter
      (fun v => notExcluded (some u) v)).Nodup := hndRem.filter _
  refine ⟨rfl, ?_, ?_, ?_, ?_, ?_, ?_, ?_, ?_⟩
  · simp [handle_close_msg, get_user_status, unregister, alistLookup_insert_self]
  · simp only [handle_close_msg]
    exact alistLookup_remove_self u s.connections
  · intro c
    simp only [handle_close_msg]
    rw [members_unregister]
    simp [List.mem_filter]
  · intro c
    simp only [handle_close_msg]
    rw [call_participants_unregister]
    simp [List.mem_filter]
  · intro p hp
    simp only [handle_close_msg] at hp
    have hm := mem_broadcast_to_all p (unregister s u) ser recvOk
      (.userStatusChanged u UserStatus.offline none) (some u) hp
    refine ⟨?_, ?_⟩
    · have := hm.2.2
      rw [hser] at this
      exact ((Option.some.injEq _ _).mp this).symm
    · have h2 := hm.2.1
      simp only [notExcluded] at h2
      exact fun hEq => by simp [hEq] at h2
  · intro v hvu hvconn
    rw [husers]
    refine List.count_eq_one_of_mem hndFil ?_
    refine List.mem_filter.mpr ⟨?_, ?_⟩
    · cases hl : alistLookup v s.connections with
      | none => rw [hl] at hvconn; simp at hvconn
      | some w =>
        have hmem : (v, w) ∈ s.connections := alistLookup_mem v w s.connections hl
        have hmemRem : (v, w) ∈ (unregister s u).connections := by
          simp only [unregister, alistRemove]
          exact List.mem_filter.mpr ⟨hmem, bne_iff_ne.mpr hvu⟩
        exact List.mem_map_of_mem Prod.fst hmemRem
    · simp only [notExcluded]
      exact bne_iff_ne.mpr (Ne.symm hvu)
  · rw [husers]
    refine List.count_eq_zero.mpr (fun hmem => ?_)
    have := (List.mem_filter.mp hmem).2
    simp [notExcluded] at this
  · simp only [handle_close_msg, session_cleanup]
    exact unregister_idem s u

/-- C6 witness: closing user 0's session in `srvW` cleans up user 0 and
pushes exactly one offline notice to user 1. -/
theorem C6_close_cleanup_and_offline_notice_witness :
    get_user_status (handle_close_msg serConst recvOkTrue srvW (some 0)).server 0
        = UserStatus.offline
      ∧ (∀ c, 0 ∉ members (handle_close_msg serConst recvOkTrue srvW (some 0)).server c)
      ∧ ((handle_close_msg serConst recvOkTrue srvW (some 0)).pushes.map
            Push.user).count 1 = 1
      ∧ ((handle_close_msg serConst recvOkTrue srvW (some 0)).pushes.map
            Push.user).count 0 = 0 := by
  have h := C6_close_cleanup_and_offline_notice serConst recvOkTrue srvW 0 "w"
    rfl (by decide)
  exact ⟨h.2.1, h.2.2.2.1, h.2.2.2.2.2.2.1 1 (by decide) (by decide),
    h.2.2.2.2.2.2.2.1⟩

/-- C3 counterexample: the hub state `badSys` is reachable (user 0 logs in
from two sessions, the first session closes and unregisters user 0, the
surviving session — still authenticated — joins call 7), yet in it user 0
appears in call 7's subscription set while holding no handle in the
Connection Registry; so the claimed registry invariant does not hold in
every reachable state. -/
theorem C3_counterexample :
    Reachable badSys
      ∧ (0 : Uuid) ∈ get_call_participants badSys.server 7
      ∧ alistLookup 0 badSys.server.connections = none := by
  refine ⟨?_, by decide, rfl⟩
  have s1 : Step initSys sys1 := Step.spawn initSys 0 rfl
  have s2 : Step sys1 sys2 := Step.spawn sys1 1 rfl
  have s3 : Step sys2 sys3 :=
    Step.text sys2 0 none (.authenticate "t") env3 serNone recvOkTrue rfl
  have s4 : Step sys3 sys4 :=
    Step.text sys3 1 none (.authenticate "t") env3 serNone recvOkTrue rfl
  have s5 : Step sys4 sys5 :=
    Step.close_frame sys4 0 (some 0) serNone recvOkTrue rfl
  have s6 : Step sys5 sys6 := Step.cleanup sys5 0 (some 0) rfl
  have s7 : Step sys6 badSys :=
    Step.text sys6 1 (some 0) (.joinCall 7) env3 serNone recvOkTrue rfl
  exact Relation.ReflTransGen.tail
    (Relation.ReflTransGen.tail
      (Relation.ReflTransGen.tail
        (Relation.ReflTransGen.tail
          (Relation.ReflTransGen.tail
            (Relation.ReflTransGen.tail (Relation.ReflTransGen.single s1) s2) s3)
          s4) s5) s6) s7

/-- C3 amended: deregistration itself establishes the claimed state — right
after `unregister(u)` completes, u appears in no channel or call
subscription set and has no handle, and any broadcast evaluated against that
state delivers nothing to u. (The global form of the invariant fails only
when a second live session of the same user re-subscribes it after the
deregistration, as the counterexample trace shows.) -/
theorem C3_post_unregister_invariant (s : WebSocketServer) (u : Uuid) :
    (∀ c, u ∉ members (unregister s u) c)
    ∧ (∀ c, u ∉ get_call_participants (unregister s u) c)
    ∧ alistLookup u (unregister s u).connections = none
    ∧ (∀ ser recvOk c msg ex p,
        p ∈ broadcast_to_channel (unregister s u) ser recvOk c msg ex → p.user ≠ u)
    ∧ (∀ ser recvOk c msg ex p,
        p ∈ send_to_call_participants (unregister s u) ser recvOk c msg ex →
          p.user ≠ u)
    ∧ (∀ ser recvOk msg ex p,
        p ∈ broadcast_to_all (unregister s u) ser recvOk msg ex → p.user ≠ u) := by
  refine ⟨?_, ?_, alistLookup_remove_self u s.connections, ?_, ?_, ?_⟩
  · intro c
    rw [members_unregister]
    simp [List.mem_filter]
  · intro c
    rw [call_participants_unregister]
    simp [List.mem_filter]
  · intro ser recvOk c msg ex p hp hpu
    have hm := (mem_broadcast_to_channel p (unregister s u) ser recvOk c msg ex hp).2.2.1
    rw [hpu] at hm
    rw [show (unregister s u).connections = alistRemove u s.connections from rfl,
      alistLookup_remove_self] at hm
    exact Option.noConfusion hm
  · intro ser recvOk c msg ex p hp hpu
    have hm := (mem_send_to_call_participants p (unregister s u) ser recvOk c msg
      ex hp).2.2.1
    rw [hpu] at hm
    rw [show (unregister s u).connections = alistRemove u s.connections from rfl,
      alistLookup_remove_self] at hm
    exact Option.noConfusion hm
  · intro ser recvOk msg ex p hp hpu
    have hm := (mem_broadcast_to_all p (unregister s u) ser recvOk msg ex hp).1
    rw [hpu] at hm
    simp only [unregister, alistRemove, List.mem_filter] at hm
    simpa using hm.2

/-- C3 amended witness: after unregistering user 0 from `srvW`, user 0 is in
no subscription set, and the push delivered by a channel broadcast in that
state goes to user 1, not to user 0. -/
theorem C3_post_unregister_invariant_witness :
    (0 : Uuid) ∉ members (unregister srvW 0) 5
      ∧ ((⟨1, 1, "w", true⟩ : Push)).user ≠ 0 :=
  ⟨(C3_post_unregister_invariant srvW 0).1 5,
    (C3_post_unregister_invariant srvW 0).2.2.2.1 serConst recvOkTrue 5 msgW none
      ⟨1, 1, "w", true⟩ (by decide)⟩

end ApoloTeams
